import Mathlib

/- Verification development for the pico-mouse firmware core (src/main.c):
   the serial command parser of cdc_task, the command versus joystick
   arbitration window, the joystick axis mapper of read_joystick, the long
   press sensitivity state machine of hid_task, and report synthesis.
   C machine integers are embedded as Nat and Int with explicit wrapping. -/

/-- Conversion of a C int value to uint8_t, as in the assignment to
mouse_cmd.buttons (src/main.c line 162): reduction modulo 256. -/
def toUInt8c (n : Int) : Nat := (Int.emod n 256).toNat

/-- Conversion of a C int value to int8_t, as in the assignments at src/main.c
lines 163 to 166 and in the casts inside read_joystick: two's complement wrap
into the range -128 to 127. -/
def toInt8c (n : Int) : Int := (n + 128) % 256 - 128

/-- Wrapping difference of two uint32 millisecond timestamps, as computed by C
unsigned arithmetic in expressions such as current_time - cdc_command_time
(src/main.c lines 386 and 407). Arguments are assumed below 2 ^ 32. -/
def u32sub (a b : Nat) : Nat := (2 ^ 32 + a - b) % 2 ^ 32

/-- Whitespace characters skipped by the %d conversions of sscanf (C isspace
in the default locale). -/
def isSpaceC (c : Char) : Bool :=
  c = ' ' || c = '\t' || c = '\n' || c = '\r' || c = '\x0b' || c = '\x0c'

/-- Decimal digit test used by the %d conversion model. -/
def isDigitC (c : Char) : Bool := '0' ≤ c && c ≤ '9'

/-- Numeric value of a decimal digit character. -/
def digitVal (c : Char) : Nat := c.toNat - '0'.toNat

/-- One %d conversion of the sscanf call at src/main.c line 159: skip leading
whitespace, read an optional sign and a nonempty run of decimal digits, and
stop at the first character that does not continue the number; fail when no
digit is found. Returns the value and the unconsumed rest of the input. -/
def scanIntC (l : List Char) : Option (Int × List Char) :=
  let l1 := l.dropWhile isSpaceC
  let sr : Int × List Char :=
    match l1 with
    | '-' :: rest => (-1, rest)
    | '+' :: rest => (1, rest)
    | _ => (1, l1)
  let ds := sr.2.takeWhile isDigitC
  if ds.isEmpty then none
  else some (sr.1 * ((ds.foldl (fun a c => a * 10 + digitVal c) 0 : Nat) : Int),
             sr.2.dropWhile isDigitC)

/-- The seven int variables filled by the sscanf call of src/main.c line 158
and 159: head, btn, x, y, wheel, pan, sum. -/
structure ScanResult7 where
  head : Int
  btn : Int
  x : Int
  y : Int
  wheel : Int
  pan : Int
  sum : Int
deriving DecidableEq

/-- The sscanf call of src/main.c line 159 with format string of seven %d
conversions separated by spaces: seven successive integer conversions, each
skipping leading whitespace. It succeeds exactly when all seven convert; any
input left after the seventh number is ignored, exactly as sscanf ignores it
(sscanf returns the count of conversions, and cdc_task compares it to 7). -/
def scan7 (l : List Char) : Option ScanResult7 :=
  (scanIntC l).bind fun p1 =>
  (scanIntC p1.2).bind fun p2 =>
  (scanIntC p2.2).bind fun p3 =>
  (scanIntC p3.2).bind fun p4 =>
  (scanIntC p4.2).bind fun p5 =>
  (scanIntC p5.2).bind fun p6 =>
  (scanIntC p6.2).bind fun p7 =>
  some ⟨p1.1, p2.1, p3.1, p4.1, p5.1, p6.1, p7.1⟩

/-- The volatile mouse_cmd structure of src/main.c lines 60 to 67. buttons is
uint8_t (a Nat below 256); x, y, wheel, pan are int8_t (Ints in -128..127). -/
structure MouseCmd where
  buttons : Nat
  x : Int
  y : Int
  wheel : Int
  pan : Int
  hasData : Bool
deriving DecidableEq

/-- The mutable firmware state the claims concern: mouse_cmd (src/main.c lines
60 to 67), cdc_command_time (line 75), sensitivity_level (line 79), and the
static locals last_button_state, button_press_start_time and
sensitivity_changed of hid_task (lines 396 to 398). Timestamps are uint32
millisecond counts, kept below 2 ^ 32. -/
structure DeviceState where
  mouseCmd : MouseCmd
  cdcCommandTime : Nat
  sensitivityLevel : Nat
  lastButtonState : Bool
  buttonPressStartTime : Nat
  sensitivityChanged : Bool
deriving DecidableEq

/-- The power on state: mouse_cmd is zero initialised with has_data false
(line 67), cdc_command_time is 0 (line 75), sensitivity_level defaults to 2
(line 79), and the static locals of hid_task start at 0 and false (lines 396
to 398). -/
def initState : DeviceState :=
  { mouseCmd := { buttons := 0, x := 0, y := 0, wheel := 0, pan := 0, hasData := false }
    cdcCommandTime := 0
    sensitivityLevel := 2
    lastButtonState := false
    buttonPressStartTime := 0
    sensitivityChanged := false }

/-- One HID mouse report as passed to tud_hid_mouse_report: buttons (uint8_t),
x, y, wheel and pan (int8_t each). -/
structure Report where
  buttons : Nat
  x : Int
  y : Int
  wheel : Int
  pan : Int
deriving DecidableEq

/-- Inputs sampled during one reporting tick of hid_task that passes the one
millisecond rate gate and the tud_hid_ready check: the clock value now
(board_millis), the raw 12 bit ADC samples of the two axes, the button level
after the pull up inversion at src/main.c line 113 (true means pressed), and
the two successive rand() values consumed at lines 378 and 379. -/
structure Tick where
  now : Nat
  xRaw : Nat
  yRaw : Nat
  button : Bool
  r1 : Nat
  r2 : Nat

/-- The divisor table sensitivity_divisors of src/main.c line 85. -/
def sensitivity_divisors : List Nat := [5, 10, 30]

/-- The final range limiting of read_joystick (src/main.c lines 139 to 142)
for one axis: first clip above 127, then clip below -127. -/
def clamp127 (x : Int) : Int :=
  let x1 := if 127 < x then 127 else x
  if x1 < -127 then -127 else x1

/-- The X axis computation of read_joystick (src/main.c lines 117 to 127
together with the clamp at lines 139 and 140) on the raw ADC sample. C integer
promotion makes the arithmetic signed int, division truncates toward zero, and
each branch result is converted to int8_t by the cast in the source. -/
def readJoystickX (vRaw : Nat) : Int :=
  let v : Int := vRaw
  let x0 : Int :=
    if 2048 + 100 < v then
      toInt8c (Int.tdiv ((v - 2048 - 100) * 127) (4095 - 2048 - 100))
    else if v < 2048 - 100 then
      toInt8c (Int.tdiv ((v - 2048 + 100) * 127) (2048 - 100))
    else 0
  clamp127 x0

/-- The Y axis computation of read_joystick (src/main.c lines 130 to 136
together with the clamp at lines 141 and 142). Despite the source comment
about direction inversion, the statements are identical to the X axis ones. -/
def readJoystickY (vRaw : Nat) : Int :=
  let v : Int := vRaw
  let y0 : Int :=
    if 2048 + 100 < v then
      toInt8c (Int.tdiv ((v - 2048 - 100) * 127) (4095 - 2048 - 100))
    else if v < 2048 - 100 then
      toInt8c (Int.tdiv ((v - 2048 + 100) * 127) (2048 - 100))
    else 0
  clamp127 y0

/-- Sensitivity scaling of hid_task (src/main.c lines 415 to 425): look up the
divisor for the current level, divide the X delta by it, and divide the Y
delta by four times that divisor at levels 1 and 2 or by the same divisor at
any other level. Divisions are C int divisions (truncation toward zero) and
each quotient is converted to int8_t by the assignment. -/
def scaleDeltas (level : Nat) (jx jy : Int) : Int × Int :=
  let d : Nat := sensitivity_divisors.getD (level - 1) 0
  let mx := toInt8c (Int.tdiv jx (d : Int))
  let my :=
    if level = 1 ∨ level = 2 then toInt8c (Int.tdiv jy ((d * 4 : Nat) : Int))
    else toInt8c (Int.tdiv jy (d : Int))
  (mx, my)

/-- The jitter computation of src/main.c lines 378 and 379: the C expression
(rand() % 2) - 2 + d * 0.03 converted to int8_t, where d is the stored int8
delta. The conversion of the double sum truncates toward zero. For every d
with natAbs d at most 128, the rounding of the double literal 0.03, of the
product and of the sum stays well below 1 / 100 and the exact value
(r % 2) - 2 + 3 * d / 100 is an integer only at d = -100, 0, 100, where the
double computation happens to be exact after rounding; hence the converted
result equals the truncation toward zero of the exact rational
(100 * ((r % 2) - 2) + 3 * d) / 100, which is what this definition computes. -/
def jitterCode (r : Nat) (d : Int) : Int :=
  toInt8c (Int.tdiv ((((r % 2 : Nat) : Int) - 2) * 100 + 3 * d) 100)

/-- The command branch of hid_task (src/main.c lines 376 to 382): synthesize a
report from the pending command with jitter added to x and y only, and clear
has_data. The x and y parameters of tud_hid_mouse_report are int8_t, so the
sums wrap into int8 range. -/
def cmdBranch (t : Tick) (s : DeviceState) : DeviceState × Option Report :=
  let rx := jitterCode t.r1 s.mouseCmd.x
  let ry := jitterCode t.r2 s.mouseCmd.y
  ({ s with mouseCmd := { s.mouseCmd with hasData := false } },
   some { buttons := s.mouseCmd.buttons
          x := toInt8c (s.mouseCmd.x + rx)
          y := toInt8c (s.mouseCmd.y + ry)
          wheel := s.mouseCmd.wheel
          pan := s.mouseCmd.pan })

/-- The long press sensitivity state machine of hid_task (src/main.c lines
400 to 413): on a press edge record the press start and clear the converted
flag; else on a held press that has not converted yet and has lasted at least
1000 milliseconds, increment sensitivity_level (a uint8_t, hence the modulo
256) and reset it to 1 when it exceeds 3, and set the converted flag; else
leave everything unchanged. Returns the updated button_press_start_time,
sensitivity_level and sensitivity_changed. -/
def sensMachine (now : Nat) (button : Bool) (s : DeviceState) : Nat × Nat × Bool :=
  if button = true ∧ s.lastButtonState = false then
    (now, s.sensitivityLevel, false)
  else if button = true ∧ s.sensitivityChanged = false ∧
          1000 ≤ u32sub now s.buttonPressStartTime then
    (s.buttonPressStartTime,
     if 3 < (s.sensitivityLevel + 1) % 256 then 1 else (s.sensitivityLevel + 1) % 256,
     true)
  else (s.buttonPressStartTime, s.sensitivityLevel, s.sensitivityChanged)

/-- The joystick branch of hid_task (src/main.c lines 390 to 434): read the
joystick, run the long press sensitivity state machine (press edge, long press
conversion, idle), update last_button_state, scale the deltas by the active
divisor, and emit a movement report when a scaled delta is nonzero, else a
left click report when the button is down and no conversion happened this
press, else nothing. -/
def joystickBranch (t : Tick) (s : DeviceState) : DeviceState × Option Report :=
  let jx := readJoystickX t.xRaw
  let jy := readJoystickY t.yRaw
  let m : Nat × Nat × Bool := sensMachine t.now t.button s
  let s1 : DeviceState :=
    { s with lastButtonState := t.button, buttonPressStartTime := m.1,
             sensitivityLevel := m.2.1, sensitivityChanged := m.2.2 }
  let d := scaleDeltas m.2.1 jx jy
  let rep : Option Report :=
    if ¬(d.1 = 0) ∨ ¬(d.2 = 0) then
      some { buttons := 0, x := d.1, y := d.2, wheel := 0, pan := 0 }
    else if t.button = true ∧ m.2.2 = false then
      some { buttons := 1, x := 0, y := 0, wheel := 0, pan := 0 }
    else none
  (s1, rep)

/-- One reporting tick of hid_task (src/main.c lines 361 to 457) past the one
millisecond rate gate and the tud_hid_ready check: a pending command is
emitted with priority; otherwise the whole tick is skipped while inside the
500 millisecond arbitration window; otherwise the joystick branch runs. -/
def hidStep (t : Tick) (s : DeviceState) : DeviceState × Option Report :=
  if s.mouseCmd.hasData = true then cmdBranch t s
  else if u32sub t.now s.cdcCommandTime < 500 then (s, none)
  else joystickBranch t s

/-- One execution of the parsing body of cdc_task (src/main.c lines 156 to
177) on a received nonempty line: run the seven conversion sscanf; when all
seven convert, check header and checksum; on success store the command with
int8 and uint8 narrowing, set has_data and record cdc_command_time; on any
failure leave every state field untouched. Returns the new state and the
acknowledgement written back over CDC. -/
def cdcStep (l : List Char) (now : Nat) (s : DeviceState) : DeviceState × String :=
  match scan7 l with
  | some r =>
      if r.head = 55 ∧ r.btn + r.x + r.y + r.wheel + r.pan = r.sum then
        ({ s with
            mouseCmd := { buttons := toUInt8c r.btn, x := toInt8c r.x, y := toInt8c r.y,
                          wheel := toInt8c r.wheel, pan := toInt8c r.pan, hasData := true }
            cdcCommandTime := now }, "ok\n")
      else (s, "protocol error\n")
  | none => (s, "format error\n")

/-- Number of ticks in the given list at which hid_task changes
sensitivity_level, starting from the given state and threading the state
through the ticks in order. -/
def levelChanges : List Tick → DeviceState → Nat
  | [], _ => 0
  | t :: ts, s =>
      (if (hidStep t s).1.sensitivityLevel = s.sensitivityLevel then 0 else 1) +
        levelChanges ts (hidStep t s).1

/-- Split of a line into its maximal nonempty runs of non whitespace
characters, accumulator based. Used only to state the spec side reading of
claim C7, which speaks of the tokens of the whole line. -/
def splitWsAux : List Char → List Char → List (List Char)
  | [], acc => if acc.isEmpty then [] else [acc.reverse]
  | c :: rest, acc =>
      if isSpaceC c then
        (if acc.isEmpty then splitWsAux rest [] else acc.reverse :: splitWsAux rest [])
      else splitWsAux rest (c :: acc)

/-- All whitespace separated tokens of a line. -/
def splitWs (l : List Char) : List (List Char) := splitWsAux l []

/-- A whole token that successfully parses as a decimal integer: an optional
sign followed by a nonempty run of digits and nothing else. -/
def isIntTokenC (tok : List Char) : Bool :=
  match tok with
  | '-' :: ds => !ds.isEmpty && ds.all isDigitC
  | '+' :: ds => !ds.isEmpty && ds.all isDigitC
  | ds => !ds.isEmpty && ds.all isDigitC

/-- The condition worded in claim C7: the received line consists of exactly
seven successfully parsed integer tokens. This follows the wording of the
spec, to be compared with the sscanf based acceptance of cdc_task: sscanf
stops after its seventh conversion and ignores everything after it, so the
two notions disagree on lines with trailing extra tokens. -/
def sevenIntTokens (l : List Char) : Bool :=
  (splitWs l).length = 7 && (splitWs l).all isIntTokenC

/-- The axis mapping exactly as worded in claim C4 and spec section 4.4:
the two branch formulas with integer division, zero inside the deadzone, and
a final clamp of the result into the range -127 to 127. Compared against the
source translation readJoystickX below. -/
def specMappedDelta (vRaw : Nat) : Int :=
  let v : Int := vRaw
  let center : Int := 2048
  let dz : Int := 100
  let raw : Int :=
    if center + dz < v then Int.tdiv ((v - center - dz) * 127) (4095 - center - dz)
    else if v < center - dz then Int.tdiv ((v - center + dz) * 127) (center - dz)
    else 0
  if raw < -127 then -127 else if 127 < raw then 127 else raw

/-- The per level divisor table exactly as worded in claim C5: level 1 maps
to 5, level 2 to 10, level 3 to 30. -/
def specDivisor (level : Nat) : Nat :=
  if level = 1 then 5 else if level = 2 then 10 else 30

/-- The Y axis divisor as worded in claim C5: four times the table divisor at
levels 1 and 2, the table divisor itself at level 3. -/
def specDivisorY (level : Nat) : Nat :=
  if level = 1 ∨ level = 2 then specDivisor level * 4 else specDivisor level

/-- The jitter exactly as worded in claim C6: a pseudorandom value in 0 or 1,
minus 2, plus the floor of d * 0.03. For natAbs d at most 128 the double
product d * 0.03 never rounds across an integer, so its floor equals the
floor of the exact rational 3 * d / 100, written here with Int.fdiv. -/
def specFloorJitter (r : Nat) (d : Int) : Int :=
  ((r % 2 : Nat) : Int) - 2 + Int.fdiv (3 * d) 100

/-- The command sourced report as amended for claim C6: the jitter added to
each of x and y is the whole sum (r % 2) - 2 + d * 0.03 truncated toward zero
(the C double to int8_t conversion applies to the sum, and is a truncation,
not a floor of the product alone); buttons, wheel and pan pass through, and
the jittered x and y wrap into int8 range. -/
def specCmdReport (r1 r2 : Nat) (c : MouseCmd) : Report :=
  { buttons := c.buttons
    x := toInt8c (c.x + Int.tdiv ((((r1 % 2 : Nat) : Int) - 2) * 100 + 3 * c.x) 100)
    y := toInt8c (c.y + Int.tdiv ((((r2 % 2 : Nat) : Int) - 2) * 100 + 3 * c.y) 100)
    wheel := c.wheel
    pan := c.pan }

/-- The example line of claim C1: head 55, payload 1 10 -5 0 0, checksum 6. -/
def lineOk : List Char := "55 1 10 -5 0 0 6".toList

/-- The example line of claim C8: same payload with wrong checksum 7. -/
def lineBadSum : List Char := "55 1 10 -5 0 0 7".toList

/-- A valid line followed by one extra trailing integer token: it has eight
whitespace separated integer tokens, yet sscanf succeeds after seven
conversions and ignores the trailing token. -/
def lineTrailing : List Char := "55 1 10 -5 0 0 6 0".toList

/-- The pending command produced by the example line of claim C1. -/
def cmdC6 : MouseCmd :=
  { buttons := 1, x := 10, y := -5, wheel := 0, pan := 0, hasData := true }

/-- A state holding that pending command. -/
def stateC6 : DeviceState := { initState with mouseCmd := cmdC6 }

/-- A tick with both rand() draws equal to 0 and the joystick centered. -/
def tickC6 : Tick :=
  { now := 0, xRaw := 2048, yRaw := 2048, button := false, r1 := 0, r2 := 0 }

/-- A state 100 milliseconds after a command was accepted, with the pending
command already consumed. -/
def stateC2 : DeviceState := { initState with cdcCommandTime := 100 }

/-- A tick 200 milliseconds into the arbitration window of stateC2. -/
def tickA : Tick := { now := 300, xRaw := 2048, yRaw := 2048, button := false, r1 := 0, r2 := 0 }

/-- A tick 600 milliseconds after the command of stateC2, past the window. -/
def tickD : Tick := { now := 700, xRaw := 2048, yRaw := 2048, button := false, r1 := 0, r2 := 0 }

/-- A tick at 250 milliseconds after power on, with the joystick hard against
its limits and the button held. -/
def tickC10 : Tick := { now := 250, xRaw := 4095, yRaw := 0, button := true, r1 := 1, r2 := 1 }

/-- The power on state with the button already recorded as held. -/
def stateC3 : DeviceState := { initState with lastButtonState := true }

/-- A tick two seconds in, button still held, joystick centered. -/
def tickC3 : Tick := { now := 2000, xRaw := 2048, yRaw := 2048, button := true, r1 := 0, r2 := 0 }

/- Helper lemmas. -/

theorem toInt8c_eq_self (n : Int) (h1 : -128 ≤ n) (h2 : n ≤ 127) : toInt8c n = n := by
  unfold toInt8c
  omega

theorem clamp127_eq_self (x : Int) (h1 : -127 ≤ x) (h2 : x ≤ 127) : clamp127 x = x := by
  simp only [clamp127]
  repeat' split
  all_goals omega

theorem tdiv_coe (m n : Nat) : Int.tdiv (m : Int) (n : Int) = ((m / n : Nat) : Int) := rfl

theorem tdiv_neg_coe (k n : Nat) :
    Int.tdiv (-(k : Int)) (n : Int) = -((k / n : Nat) : Int) := by
  cases k with
  | zero => simp [Int.tdiv]
  | succ m => rfl

theorem natAbs_tdiv (a : Int) (d : Nat) : (Int.tdiv a (d : Int)).natAbs = a.natAbs / d := by
  cases a with
  | ofNat m => rfl
  | negSucc m =>
      rw [show Int.tdiv (Int.negSucc m) ((d : Nat) : Int) = -(((m + 1) / d : Nat) : Int) from rfl,
         Int.natAbs_neg]
      rfl

theorem toInt8c_tdiv_eq (a : Int) (d : Nat) (ha : a.natAbs ≤ 127) :
    toInt8c (Int.tdiv a (d : Int)) = Int.tdiv a (d : Int) := by
  have h1 := natAbs_tdiv a d
  have h2 : a.natAbs / d ≤ 127 := le_trans (Nat.div_le_self _ _) ha
  refine toInt8c_eq_self _ ?_ ?_ <;> omega

theorem u32sub_eq (a b : Nat) (h1 : b ≤ a) (h2 : a < 2 ^ 32) : u32sub a b = a - b := by
  unfold u32sub
  omega

theorem readJoystickX_pos (v : Nat) (h1 : 2148 < v) (h2 : v ≤ 4095) :
    readJoystickX v = (((v - 2148) * 127 / 1947 : Nat) : Int) := by
  have hb : (v - 2148) * 127 / 1947 ≤ 127 := by
    have h3 : (v - 2148) * 127 ≤ 1947 * 127 := Nat.mul_le_mul_right 127 (by omega)
    have h4 := Nat.div_le_div_right (c := 1947) h3
    omega
  have hcast : ((v : Int) - 2048 - 100) * 127 = (((v - 2148) * 127 : Nat) : Int) := by
    have he : ((v : Int) - 2048 - 100) = ((v - 2148 : Nat) : Int) := by omega
    rw [he]
    push_cast
    ring
  simp only [readJoystickX]
  rw [if_pos (show (2048 : Int) + 100 < (v : Nat) by omega), hcast,
     show ((4095 : Int) - 2048 - 100) = ((1947 : Nat) : Int) by decide, tdiv_coe,
     toInt8c_eq_self _ (by omega) (by omega), clamp127_eq_self _ (by omega) (by omega)]

theorem readJoystickX_neg (v : Nat) (h : v < 1948) :
    readJoystickX v = -(((1948 - v) * 127 / 1948 : Nat) : Int) := by
  have hb : (1948 - v) * 127 / 1948 ≤ 127 := by
    have h3 : (1948 - v) * 127 ≤ 1948 * 127 := Nat.mul_le_mul_right 127 (by omega)
    have h4 := Nat.div_le_div_right (c := 1948) h3
    omega
  have hcast : ((v : Int) - 2048 + 100) * 127 = -(((1948 - v) * 127 : Nat) : Int) := by
    have he : ((v : Int) - 2048 + 100) = -((1948 - v : Nat) : Int) := by omega
    rw [he]
    push_cast
    ring
  simp only [readJoystickX]
  rw [if_neg (show ¬((2048 : Int) + 100 < (v : Nat)) by omega),
     if_pos (show ((v : Nat) : Int) < 2048 - 100 by omega), hcast,
     show ((2048 : Int) - 100) = ((1948 : Nat) : Int) by decide, tdiv_neg_coe,
     toInt8c_eq_self _ (by omega) (by omega), clamp127_eq_self _ (by omega) (by omega)]

theorem readJoystickX_mid (v : Nat) (h1 : 1948 ≤ v) (h2 : v ≤ 2148) : readJoystickX v = 0 := by
  simp only [readJoystickX]
  rw [if_neg (show ¬((2048 : Int) + 100 < (v : Nat)) by omega),
     if_neg (show ¬(((v : Nat) : Int) < 2048 - 100) by omega)]
  rfl

theorem readJoystickY_eq_X (v : Nat) : readJoystickY v = readJoystickX v := rfl

theorem specMappedDelta_pos (v : Nat) (h1 : 2148 < v) (h2 : v ≤ 4095) :
    specMappedDelta v = (((v - 2148) * 127 / 1947 : Nat) : Int) := by
  have hb : (v - 2148) * 127 / 1947 ≤ 127 := by
    have h3 : (v - 2148) * 127 ≤ 1947 * 127 := Nat.mul_le_mul_right 127 (by omega)
    have h4 := Nat.div_le_div_right (c := 1947) h3
    omega
  have hcast : ((v : Int) - 2048 - 100) * 127 = (((v - 2148) * 127 : Nat) : Int) := by
    have he : ((v : Int) - 2048 - 100) = ((v - 2148 : Nat) : Int) := by omega
    rw [he]
    push_cast
    ring
  simp only [specMappedDelta]
  rw [if_pos (show (2048 : Int) + 100 < (v : Nat) by omega), hcast,
     show ((4095 : Int) - 2048 - 100) = ((1947 : Nat) : Int) by decide, tdiv_coe,
     if_neg (by omega), if_neg (by omega)]

theorem specMappedDelta_neg (v : Nat) (h : v < 1948) :
    specMappedDelta v = -(((1948 - v) * 127 / 1948 : Nat) : Int) := by
  have hb : (1948 - v) * 127 / 1948 ≤ 127 := by
    have h3 : (1948 - v) * 127 ≤ 1948 * 127 := Nat.mul_le_mul_right 127 (by omega)
    have h4 := Nat.div_le_div_right (c := 1948) h3
    omega
  have hcast : ((v : Int) - 2048 + 100) * 127 = -(((1948 - v) * 127 : Nat) : Int) := by
    have he : ((v : Int) - 2048 + 100) = -((1948 - v : Nat) : Int) := by omega
    rw [he]
    push_cast
    ring
  simp only [specMappedDelta]
  rw [if_neg (show ¬((2048 : Int) + 100 < (v : Nat)) by omega),
     if_pos (show ((v : Nat) : Int) < 2048 - 100 by omega), hcast,
     show ((2048 : Int) - 100) = ((1948 : Nat) : Int) by decide, tdiv_neg_coe,
     if_neg (by omega), if_neg (by omega)]

theorem specMappedDelta_mid (v : Nat) (h1 : 1948 ≤ v) (h2 : v ≤ 2148) :
    specMappedDelta v = 0 := by
  simp only [specMappedDelta]
  rw [if_neg (show ¬((2048 : Int) + 100 < (v : Nat)) by omega),
     if_neg (show ¬(((v : Nat) : Int) < 2048 - 100) by omega)]
  rfl

theorem cdcStep_none (l : List Char) (now : Nat) (s : DeviceState) (hs : scan7 l = none) :
    cdcStep l now s = (s, "format error\n") := by
  simp only [cdcStep, hs]

theorem cdcStep_bad (l : List Char) (now : Nat) (s : DeviceState) (r : ScanResult7)
    (hs : scan7 l = some r)
    (hc : ¬(r.head = 55 ∧ r.btn + r.x + r.y + r.wheel + r.pan = r.sum)) :
    cdcStep l now s = (s, "protocol error\n") := by
  simp only [cdcStep, hs]
  rw [if_neg hc]

theorem cdcStep_accept (l : List Char) (now : Nat) (s : DeviceState) (r : ScanResult7)
    (hs : scan7 l = some r)
    (hc : r.head = 55 ∧ r.btn + r.x + r.y + r.wheel + r.pan = r.sum) :
    cdcStep l now s =
      ({ s with
          mouseCmd := { buttons := toUInt8c r.btn, x := toInt8c r.x, y := toInt8c r.y,
                        wheel := toInt8c r.wheel, pan := toInt8c r.pan, hasData := true }
          cdcCommandTime := now }, "ok\n") := by
  simp only [cdcStep, hs]
  rw [if_pos hc]

theorem jitterCode_eq (r : Nat) (d : Int) (hd : d.natAbs ≤ 128) :
    jitterCode r d = Int.tdiv ((((r % 2 : Nat) : Int) - 2) * 100 + 3 * d) 100 := by
  unfold jitterCode
  have hr : r % 2 < 2 := Nat.mod_lt _ (by norm_num)
  have h1 : (Int.tdiv ((((r % 2 : Nat) : Int) - 2) * 100 + 3 * d) 100).natAbs =
      ((((r % 2 : Nat) : Int) - 2) * 100 + 3 * d).natAbs / 100 :=
    natAbs_tdiv ((((r % 2 : Nat) : Int) - 2) * 100 + 3 * d) 100
  refine toInt8c_eq_self _ ?_ ?_ <;> omega

theorem joystickBranch_fst (t : Tick) (s : DeviceState) :
    (joystickBranch t s).1 =
      { s with lastButtonState := t.button,
               buttonPressStartTime := (sensMachine t.now t.button s).1,
               sensitivityLevel := (sensMachine t.now t.button s).2.1,
               sensitivityChanged := (sensMachine t.now t.button s).2.2 } := rfl

theorem cycle_ne (l : Nat) :
    ¬(if 3 < (l + 1) % 256 then 1 else (l + 1) % 256) = l := by
  split <;> omega

theorem hidStep_sens_cases (t : Tick) (s : DeviceState) (hb : t.button = true) :
    ((hidStep t s).1.sensitivityLevel = s.sensitivityLevel ∧
     (hidStep t s).1.sensitivityChanged = s.sensitivityChanged ∧
     (hidStep t s).1.lastButtonState = s.lastButtonState) ∨
    ((hidStep t s).1.sensitivityLevel = s.sensitivityLevel ∧
     (hidStep t s).1.sensitivityChanged = false ∧
     (hidStep t s).1.lastButtonState = true ∧ s.lastButtonState = false) ∨
    (¬(hidStep t s).1.sensitivityLevel = s.sensitivityLevel ∧
     (hidStep t s).1.sensitivityChanged = true ∧
     (hidStep t s).1.lastButtonState = true ∧ s.sensitivityChanged = false) ∨
    ((hidStep t s).1.sensitivityLevel = s.sensitivityLevel ∧
     (hidStep t s).1.sensitivityChanged = s.sensitivityChanged ∧
     (hidStep t s).1.lastButtonState = true) := by
  unfold hidStep
  by_cases hd : s.mouseCmd.hasData = true
  · rw [if_pos hd]
    left
    simp [cmdBranch]
  · rw [if_neg hd]
    by_cases hw : u32sub t.now s.cdcCommandTime < 500
    · rw [if_pos hw]
      left
      simp
    · rw [if_neg hw]
      rw [joystickBranch_fst, hb]
      by_cases h1 : s.lastButtonState = false
      · have e : sensMachine t.now true s = (t.now, s.sensitivityLevel, false) := by
          unfold sensMachine
          rw [if_pos ⟨rfl, h1⟩]
        right; left
        simp [e, h1]
      · by_cases h2 : s.sensitivityChanged = false ∧
            1000 ≤ u32sub t.now s.buttonPressStartTime
        · have e : sensMachine t.now true s =
              (s.buttonPressStartTime,
               if 3 < (s.sensitivityLevel + 1) % 256 then 1
               else (s.sensitivityLevel + 1) % 256, true) := by
            unfold sensMachine
            rw [if_neg (fun hc => h1 hc.2), if_pos ⟨rfl, h2.1, h2.2⟩]
          right; right; left
          refine ⟨?_, by simp [e], by simp, h2.1⟩
          simp only [e]
          show ¬(if 3 < (s.sensitivityLevel + 1) % 256 then 1
                 else (s.sensitivityLevel + 1) % 256) = s.sensitivityLevel
          exact cycle_ne s.sensitivityLevel
        · have e : sensMachine t.now true s =
              (s.buttonPressStartTime, s.sensitivityLevel, s.sensitivityChanged) := by
            unfold sensMachine
            rw [if_neg (fun hc => h1 hc.2), if_neg (fun hc => h2 ⟨hc.2.1, hc.2.2⟩)]
          right; right; right
          simp [e]

theorem levelChanges_le_one (ts : List Tick) (s : DeviceState)
    (hb : ∀ t ∈ ts, t.button = true) :
    levelChanges ts s ≤ 1 ∧
    (s.sensitivityChanged = true → s.lastButtonState = true → levelChanges ts s = 0) := by
  induction ts generalizing s with
  | nil => simp [levelChanges]
  | cons t ts ih =>
      have hbt : t.button = true := hb t (by simp)
      have hbs : ∀ u ∈ ts, u.button = true := fun u hu => hb u (by simp [hu])
      have iht := ih (hidStep t s).1 hbs
      rcases hidStep_sens_cases t s hbt with ⟨h1, h2, h3⟩ | ⟨h1, h2, h3, h4⟩ |
        ⟨h1, h2, h3, h4⟩ | ⟨h1, h2, h3⟩
      · constructor
        · simp only [levelChanges, if_pos h1]
          omega
        · intro hc hl
          simp only [levelChanges, if_pos h1]
          have h0 := iht.2 (h2.trans hc) (h3.trans hl)
          omega
      · constructor
        · simp only [levelChanges, if_pos h1]
          omega
        · intro hc hl
          rw [hl] at h4
          exact absurd h4 (by decide)
      · constructor
        · simp only [levelChanges, if_neg h1]
          have h0 := iht.2 h2 h3
          omega
        · intro hc hl
          rw [hc] at h4
          exact absurd h4 (by decide)
      · constructor
        · simp only [levelChanges, if_pos h1]
          omega
        · intro hc hl
          simp only [levelChanges, if_pos h1]
          have h0 := iht.2 (h2.trans hc) h3
          omega

theorem hidStep_level_mem (t : Tick) (s : DeviceState)
    (hl : s.sensitivityLevel = 1 ∨ s.sensitivityLevel = 2 ∨ s.sensitivityLevel = 3) :
    (hidStep t s).1.sensitivityLevel = 1 ∨ (hidStep t s).1.sensitivityLevel = 2 ∨
    (hidStep t s).1.sensitivityLevel = 3 := by
  unfold hidStep
  by_cases hd : s.mouseCmd.hasData = true
  · rw [if_pos hd]
    simpa [cmdBranch] using hl
  · rw [if_neg hd]
    by_cases hw : u32sub t.now s.cdcCommandTime < 500
    · rw [if_pos hw]
      simpa using hl
    · rw [if_neg hw, joystickBranch_fst]
      by_cases h1 : t.button = true ∧ s.lastButtonState = false
      · have e : sensMachine t.now t.button s = (t.now, s.sensitivityLevel, false) := by
          unfold sensMachine
          rw [if_pos h1]
        simpa [e] using hl
      · by_cases h2 : t.button = true ∧ s.sensitivityChanged = false ∧
            1000 ≤ u32sub t.now s.buttonPressStartTime
        · have e : sensMachine t.now t.button s =
              (s.buttonPressStartTime,
               if 3 < (s.sensitivityLevel + 1) % 256 then 1
               else (s.sensitivityLevel + 1) % 256, true) := by
            unfold sensMachine
            rw [if_neg h1, if_pos h2]
          rcases hl with h | h | h <;> simp [e, h]
        · have e : sensMachine t.now t.button s =
              (s.buttonPressStartTime, s.sensitivityLevel, s.sensitivityChanged) := by
            unfold sensMachine
            rw [if_neg h1, if_neg h2]
          simpa [e] using hl

/-- Claim C1: every received serial line on which sscanf performs seven
successful integer conversions with head 55 and checksum equal to the signed
sum btn + x + y + wheel + pan is accepted by cdc_task: the acknowledgement is
ok, and the stored pending command narrows btn to unsigned 8 bit and x, y,
wheel, pan to signed 8 bit, with has_data set and cdc_command_time recorded. -/
theorem C1_parse_accepts_valid (l : List Char) (now : Nat) (s : DeviceState)
    (r : ScanResult7) (hscan : scan7 l = some r) (hhead : r.head = 55)
    (hsum : r.btn + r.x + r.y + r.wheel + r.pan = r.sum) :
    cdcStep l now s =
      ({ s with
          mouseCmd := { buttons := toUInt8c r.btn, x := toInt8c r.x, y := toInt8c r.y,
                        wheel := toInt8c r.wheel, pan := toInt8c r.pan, hasData := true }
          cdcCommandTime := now }, "ok\n") :=
  cdcStep_accept l now s r hscan ⟨hhead, hsum⟩

/-- Witness for C1 at the example line of the spec: parsing the line yields
head 55 and matching checksum 6, the acknowledgement is ok, and the stored
command is buttons 1, dx 10, dy -5, wheel 0, pan 0. -/
theorem C1_witness :
    scan7 lineOk = some ⟨55, 1, 10, -5, 0, 0, 6⟩ ∧
    (cdcStep lineOk 42 initState).2 = "ok\n" ∧
    (cdcStep lineOk 42 initState).1.mouseCmd =
      { buttons := 1, x := 10, y := -5, wheel := 0, pan := 0, hasData := true } ∧
    (cdcStep lineOk 42 initState).1.cdcCommandTime = 42 := by
  have h := C1_parse_accepts_valid lineOk 42 initState ⟨55, 1, 10, -5, 0, 0, 6⟩
    (by decide) rfl (by decide)
  rw [h]
  exact ⟨by decide, rfl, by decide, rfl⟩

/-- Claim C2: while no command is pending and fewer than 500 milliseconds have
passed since cdc_command_time, a reporting tick leaves the state untouched and
emits nothing (the whole joystick path, including the sensitivity machine, is
skipped); a pending command is emitted regardless of the window and clears
has_data; and once 500 milliseconds have passed the joystick branch runs. -/
theorem C2_arbitration_window (t : Tick) (s : DeviceState)
    (hcb : s.cdcCommandTime ≤ t.now) (hnb : t.now < 2 ^ 32) :
    (s.mouseCmd.hasData = false → t.now - s.cdcCommandTime < 500 → hidStep t s = (s, none)) ∧
    (s.mouseCmd.hasData = true →
      hidStep t s = cmdBranch t s ∧ ((cmdBranch t s).2).isSome = true ∧
      (cmdBranch t s).1.mouseCmd.hasData = false) ∧
    (s.mouseCmd.hasData = false → 500 ≤ t.now - s.cdcCommandTime →
      hidStep t s = joystickBranch t s) := by
  refine ⟨?_, ?_, ?_⟩
  · intro hd hw
    unfold hidStep
    rw [if_neg (by simp [hd]), if_pos (by rw [u32sub_eq _ _ hcb hnb]; exact hw)]
  · intro hd
    refine ⟨by unfold hidStep; rw [if_pos hd], by simp [cmdBranch], by simp [cmdBranch]⟩
  · intro hd hw
    unfold hidStep
    rw [if_neg (by simp [hd]), if_neg (by rw [u32sub_eq _ _ hcb hnb]; omega)]

/-- Witness for C2: a tick 200 milliseconds into the window does nothing; a
tick with a pending command emits it; a tick 600 milliseconds after the
command runs the joystick branch. -/
theorem C2_witness :
    hidStep tickA stateC2 = (stateC2, none) ∧
    (hidStep tickC6 stateC6 = cmdBranch tickC6 stateC6 ∧
     ((cmdBranch tickC6 stateC6).2).isSome = true ∧
     (cmdBranch tickC6 stateC6).1.mouseCmd.hasData = false) ∧
    hidStep tickD stateC2 = joystickBranch tickD stateC2 :=
  ⟨(C2_arbitration_window tickA stateC2 (by decide) (by decide)).1 rfl (by decide),
   (C2_arbitration_window tickC6 stateC6 (by decide) (by decide)).2.1 rfl,
   (C2_arbitration_window tickD stateC2 (by decide) (by decide)).2.2 rfl (by decide)⟩

/-- Claim C3: on reporting ticks the sensitivity level stays in 1, 2, 3; on a
tick outside the arbitration window with the button held (not a press edge),
no conversion yet this press, and at least 1000 milliseconds since the press
edge, the level advances exactly once along the cycle 1 to 2 to 3 back to 1
and the converted flag is set; and over any sequence of ticks during which
the button is held, the level changes at most once. -/
theorem C3_sensitivity_cycle (t : Tick) (s : DeviceState) (ts : List Tick) :
    ((s.sensitivityLevel = 1 ∨ s.sensitivityLevel = 2 ∨ s.sensitivityLevel = 3) →
      ((hidStep t s).1.sensitivityLevel = 1 ∨ (hidStep t s).1.sensitivityLevel = 2 ∨
       (hidStep t s).1.sensitivityLevel = 3)) ∧
    (t.button = true → s.lastButtonState = true → s.sensitivityChanged = false →
     s.mouseCmd.hasData = false → s.cdcCommandTime ≤ t.now →
     s.buttonPressStartTime ≤ t.now → t.now < 2 ^ 32 →
     500 ≤ t.now - s.cdcCommandTime → 1000 ≤ t.now - s.buttonPressStartTime →
     (s.sensitivityLevel = 1 ∨ s.sensitivityLevel = 2 ∨ s.sensitivityLevel = 3) →
     (hidStep t s).1.sensitivityLevel =
       (if s.sensitivityLevel = 3 then 1 else s.sensitivityLevel + 1) ∧
     (hidStep t s).1.sensitivityChanged = true) ∧
    ((∀ u ∈ ts, u.button = true) → levelChanges ts s ≤ 1) := by
  refine ⟨hidStep_level_mem t s, ?_, fun h => (levelChanges_le_one ts s h).1⟩
  intro hb hlast hchg hd hcb hpb hnb hw hp hl
  have e0 : hidStep t s = joystickBranch t s := by
    unfold hidStep
    rw [if_neg (by simp [hd]), if_neg (by rw [u32sub_eq _ _ hcb hnb]; omega)]
  rw [e0, joystickBranch_fst, hb]
  have e : sensMachine t.now true s =
      (s.buttonPressStartTime,
       if 3 < (s.sensitivityLevel + 1) % 256 then 1
       else (s.sensitivityLevel + 1) % 256, true) := by
    unfold sensMachine
    rw [if_neg (by simp [hlast]), if_pos ⟨rfl, hchg, by rw [u32sub_eq _ _ hpb hnb]; omega⟩]
  rw [e]
  constructor
  · show (if 3 < (s.sensitivityLevel + 1) % 256 then 1 else (s.sensitivityLevel + 1) % 256) =
        (if s.sensitivityLevel = 3 then 1 else s.sensitivityLevel + 1)
    rcases hl with h | h | h <;> rw [h] <;> decide
  · rfl

/-- Witness for C3: from the default level 2 with the button held since time
0, the tick at 2000 milliseconds advances the level to 3 exactly once, sets
the converted flag, and a held press trace changes the level at most once. -/
theorem C3_witness :
    ((hidStep tickC3 stateC3).1.sensitivityLevel = 1 ∨
     (hidStep tickC3 stateC3).1.sensitivityLevel = 2 ∨
     (hidStep tickC3 stateC3).1.sensitivityLevel = 3) ∧
    (hidStep tickC3 stateC3).1.sensitivityLevel =
      (if stateC3.sensitivityLevel = 3 then 1 else stateC3.sensitivityLevel + 1) ∧
    (hidStep tickC3 stateC3).1.sensitivityChanged = true ∧
    levelChanges [tickC3] stateC3 ≤ 1 := by
  have h := C3_sensitivity_cycle tickC3 stateC3 [tickC3]
  have h2 := h.2.1 rfl rfl rfl rfl (by decide) (by decide) (by decide) (by decide) (by decide)
      (Or.inr (Or.inl rfl))
  exact ⟨h.1 (Or.inr (Or.inl rfl)), h2.1, h2.2, h.2.2 (by decide)⟩

/-- Claim C4: for raw samples up to 4095 the X axis mapping of read_joystick
equals the spec formula (the two branch quotients, zero inside the deadzone,
clamped to -127..127), the center sample 2048 maps to 0, and the Y axis
computes exactly the same function as the X axis with no inversion. -/
theorem C4_axis_mapping (v : Nat) (hv : v ≤ 4095) :
    readJoystickX v = specMappedDelta v ∧
    readJoystickY v = readJoystickX v ∧
    readJoystickX 2048 = 0 := by
  refine ⟨?_, readJoystickY_eq_X v, readJoystickX_mid 2048 (by norm_num) (by norm_num)⟩
  rcases lt_or_le 2148 v with h | h
  · rw [readJoystickX_pos v h hv, specMappedDelta_pos v h hv]
  · rcases lt_or_le v 1948 with h2 | h2
    · rw [readJoystickX_neg v h2, specMappedDelta_neg v h2]
    · rw [readJoystickX_mid v h2 h, specMappedDelta_mid v h2 h]

/-- Witness for C4 at the raw sample 3000. -/
theorem C4_witness :
    readJoystickX 3000 = specMappedDelta 3000 ∧
    readJoystickY 3000 = readJoystickX 3000 ∧
    readJoystickX 2048 = 0 :=
  C4_axis_mapping 3000 (by decide)

/-- Claim C5: for levels 1, 2, 3 and mapped deltas within -127..127, the
scaling of hid_task divides the X delta by the table divisor 5, 10 or 30 of
the level and divides the Y delta by four times that divisor at levels 1 and
2 and by the same divisor at level 3, with Int.tdiv (truncation toward zero,
the C semantics of int division). -/
theorem C5_sensitivity_divisors (level : Nat) (jx jy : Int)
    (hl : level = 1 ∨ level = 2 ∨ level = 3)
    (hx : jx.natAbs ≤ 127) (hy : jy.natAbs ≤ 127) :
    scaleDeltas level jx jy =
      (Int.tdiv jx ((specDivisor level : Nat) : Int),
       Int.tdiv jy ((specDivisorY level : Nat) : Int)) := by
  rcases hl with rfl | rfl | rfl
  · show (toInt8c (Int.tdiv jx ((5 : Nat) : Int)), toInt8c (Int.tdiv jy ((20 : Nat) : Int))) =
      (Int.tdiv jx ((5 : Nat) : Int), Int.tdiv jy ((20 : Nat) : Int))
    rw [toInt8c_tdiv_eq _ _ hx, toInt8c_tdiv_eq _ _ hy]
  · show (toInt8c (Int.tdiv jx ((10 : Nat) : Int)), toInt8c (Int.tdiv jy ((40 : Nat) : Int))) =
      (Int.tdiv jx ((10 : Nat) : Int), Int.tdiv jy ((40 : Nat) : Int))
    rw [toInt8c_tdiv_eq _ _ hx, toInt8c_tdiv_eq _ _ hy]
  · show (toInt8c (Int.tdiv jx ((30 : Nat) : Int)), toInt8c (Int.tdiv jy ((30 : Nat) : Int))) =
      (Int.tdiv jx ((30 : Nat) : Int), Int.tdiv jy ((30 : Nat) : Int))
    rw [toInt8c_tdiv_eq _ _ hx, toInt8c_tdiv_eq _ _ hy]

/-- Witness for C5 at level 2 with deltas 55 and -61. -/
theorem C5_witness :
    scaleDeltas 2 55 (-61) =
      (Int.tdiv 55 ((specDivisor 2 : Nat) : Int),
       Int.tdiv (-61) ((specDivisorY 2 : Nat) : Int)) :=
  C5_sensitivity_divisors 2 55 (-61) (Or.inr (Or.inl rfl)) (by decide) (by decide)

/-- Counterexample to claim C6 as stated. The claim says the jitter equals
(pseudorandom in 0..1) - 2 + floor(dx * 0.03). At dx 10 with random draw 0
that formula gives -2 + floor(0.3) = -2, so the emitted dx would be 8. The
code instead computes (0 - 2) + 10 * 0.03 = -1.7 as a double and converts it
to int8_t, which truncates toward zero to -1, so it emits dx 9; likewise for
dy -5 with draw 0 the claim gives -5 + (-2 + floor(-0.15)) = -8 while the
code emits -5 + trunc(-2.15) = -7. -/
theorem C6_counterexample :
    specFloorJitter 0 10 = -2 ∧ jitterCode 0 10 = -1 ∧
    (hidStep tickC6 stateC6).2 =
      some { buttons := 1, x := 9, y := -7, wheel := 0, pan := 0 } :=
  ⟨by decide, by decide, by decide⟩

/-- Claim C6 as amended: for a command sourced report the emitted dx is the
int8 wrap of the stored dx plus jitter, where the jitter is the whole sum
(pseudorandom in 0..1) - 2 + dx * 0.03 truncated toward zero (not the floor
of the product alone), independently for dy with the next random draw, while
buttons, wheel and pan pass through unchanged and has_data is cleared. -/
theorem C6_amended_jitter (t : Tick) (s : DeviceState) (hd : s.mouseCmd.hasData = true)
    (hx : s.mouseCmd.x.natAbs ≤ 128) (hy : s.mouseCmd.y.natAbs ≤ 128) :
    (hidStep t s).2 = some (specCmdReport t.r1 t.r2 s.mouseCmd) ∧
    (hidStep t s).1 = { s with mouseCmd := { s.mouseCmd with hasData := false } } := by
  have e : hidStep t s = cmdBranch t s := by
    unfold hidStep
    rw [if_pos hd]
  rw [e]
  constructor
  · simp only [cmdBranch, specCmdReport]
    rw [jitterCode_eq _ _ hx, jitterCode_eq _ _ hy]
  · rfl

/-- Witness for the amended C6 at the stored command of the example line with
both random draws 0. -/
theorem C6_witness :
    (hidStep tickC6 stateC6).2 = some (specCmdReport tickC6.r1 tickC6.r2 stateC6.mouseCmd) ∧
    (hidStep tickC6 stateC6).1 =
      { stateC6 with mouseCmd := { stateC6.mouseCmd with hasData := false } } :=
  C6_amended_jitter tickC6 stateC6 rfl (by decide) (by decide)

/-- Counterexample to claim C7 as stated. The claim says cdc_task answers
format error exactly when the line does not consist of exactly seven integer
tokens. The line 55 1 10 -5 0 0 6 0 has eight integer tokens, so the claim
predicts a format error, yet sscanf stops after its seventh conversion,
ignores the trailing token, and the code accepts the line with ok. -/
theorem C7_counterexample :
    sevenIntTokens lineTrailing = false ∧
    (cdcStep lineTrailing 0 initState).2 = "ok\n" ∧
    ¬(cdcStep lineTrailing 0 initState).2 = "format error\n" :=
  ⟨by decide, by decide, by decide⟩

/-- Claim C7 as amended: cdc_task answers format error exactly when fewer
than seven integers can be converted from the front of the line (the sscanf
count is below 7; trailing input after the seventh integer is ignored), and
answers protocol error exactly when seven integers convert but the header is
not 55 or the checksum does not equal the signed payload sum. -/
theorem C7_amended_errors (l : List Char) (now : Nat) (s : DeviceState) :
    ((cdcStep l now s).2 = "format error\n" ↔ scan7 l = none) ∧
    ((cdcStep l now s).2 = "protocol error\n" ↔
      ∃ r, scan7 l = some r ∧
        ¬(r.head = 55 ∧ r.btn + r.x + r.y + r.wheel + r.pan = r.sum)) := by
  rcases hs : scan7 l with _ | r
  · rw [cdcStep_none l now s hs]
    constructor
    · exact ⟨fun _ => rfl, fun _ => rfl⟩
    · constructor
      · intro h
        exact absurd (show ("format error\n" : String) = "protocol error\n" from h) (by decide)
      · rintro ⟨r, heq, -⟩
        exact Option.noConfusion heq
  · by_cases hc : r.head = 55 ∧ r.btn + r.x + r.y + r.wheel + r.pan = r.sum
    · rw [cdcStep_accept l now s r hs hc]
      constructor
      · constructor
        · intro h
          exact absurd (show ("ok\n" : String) = "format error\n" from h) (by decide)
        · intro h
          exact Option.noConfusion h
      · constructor
        · intro h
          exact absurd (show ("ok\n" : String) = "protocol error\n" from h) (by decide)
        · rintro ⟨q, heq, hne⟩
          obtain rfl : r = q := Option.some.inj heq
          exact absurd hc hne
    · rw [cdcStep_bad l now s r hs hc]
      constructor
      · constructor
        · intro h
          exact absurd (show ("protocol error\n" : String) = "format error\n" from h) (by decide)
        · intro h
          exact Option.noConfusion h
      · exact ⟨fun _ => ⟨r, rfl, hc⟩, fun _ => rfl⟩

/-- Claim C8: every rejected line (protocol error or format error) leaves the
whole state unchanged: no command is stored, the previous pending command is
untouched, and cdc_command_time is not refreshed. -/
theorem C8_rejected_unchanged (l : List Char) (now : Nat) (s : DeviceState)
    (h : (cdcStep l now s).2 = "protocol error\n" ∨ (cdcStep l now s).2 = "format error\n") :
    (cdcStep l now s).1 = s := by
  rcases hs : scan7 l with _ | r
  · rw [cdcStep_none l now s hs]
  · by_cases hc : r.head = 55 ∧ r.btn + r.x + r.y + r.wheel + r.pan = r.sum
    · rw [cdcStep_accept l now s r hs hc] at h
      rcases h with h | h
      · exact absurd (show ("ok\n" : String) = "protocol error\n" from h) (by decide)
      · exact absurd (show ("ok\n" : String) = "format error\n" from h) (by decide)
    · rw [cdcStep_bad l now s r hs hc]

/-- Witness for C8 at the spec example line with wrong checksum 7: the
acknowledgement is protocol error and the state is exactly the prior state. -/
theorem C8_witness :
    (cdcStep lineBadSum 5 initState).2 = "protocol error\n" ∧
    (cdcStep lineBadSum 5 initState).1 = initState :=
  ⟨by decide, C8_rejected_unchanged lineBadSum 5 initState (Or.inl (by decide))⟩

/-- Claim C9: the axis mapping is monotonic in the deviation from center, on
each side of the deadzone, in magnitude, both before and after division by
any sensitivity divisor. -/
theorem C9_monotonicity (v1 v2 d : Nat) (hv2 : v2 ≤ 4095) :
    (2148 < v1 → v1 ≤ v2 →
      (readJoystickX v1).natAbs ≤ (readJoystickX v2).natAbs ∧
      (Int.tdiv (readJoystickX v1) (d : Int)).natAbs ≤
        (Int.tdiv (readJoystickX v2) (d : Int)).natAbs) ∧
    (v2 < 1948 → v1 ≤ v2 →
      (readJoystickX v2).natAbs ≤ (readJoystickX v1).natAbs ∧
      (Int.tdiv (readJoystickX v2) (d : Int)).natAbs ≤
        (Int.tdiv (readJoystickX v1) (d : Int)).natAbs) := by
  constructor
  · intro h1 h12
    rw [readJoystickX_pos v1 h1 (le_trans h12 hv2),
       readJoystickX_pos v2 (lt_of_lt_of_le h1 h12) hv2]
    have hq : (v1 - 2148) * 127 / 1947 ≤ (v2 - 2148) * 127 / 1947 :=
      Nat.div_le_div_right (Nat.mul_le_mul_right 127 (by omega))
    constructor
    · simpa using hq
    · rw [natAbs_tdiv, natAbs_tdiv]
      simp only [Int.natAbs_ofNat]
      exact Nat.div_le_div_right hq
  · intro h2 h12
    rw [readJoystickX_neg v1 (by omega), readJoystickX_neg v2 h2]
    have hq : (1948 - v2) * 127 / 1948 ≤ (1948 - v1) * 127 / 1948 :=
      Nat.div_le_div_right (Nat.mul_le_mul_right 127 (by omega))
    constructor
    · simpa using hq
    · rw [natAbs_tdiv, natAbs_tdiv]
      simp only [Int.natAbs_neg, Int.natAbs_ofNat]
      exact Nat.div_le_div_right hq

/-- Witness for C9 on the positive side at raw samples 2200 and 3000 with
divisor 5. -/
theorem C9_witness :
    (readJoystickX 2200).natAbs ≤ (readJoystickX 3000).natAbs ∧
    (Int.tdiv (readJoystickX 2200) ((5 : Nat) : Int)).natAbs ≤
      (Int.tdiv (readJoystickX 3000) ((5 : Nat) : Int)).natAbs :=
  (C9_monotonicity 2200 3000 5 (by decide)).1 (by decide) (by decide)

/-- Claim C10: at power on, cdc_command_time is initialised to 0 rather than
to a distinct no command yet state, so before any command has been accepted
every reporting tick whose clock reads below 500 milliseconds is fully
suppressed: no report is emitted and the state, including the sensitivity
machine, does not change. -/
theorem C10_power_on_suppression (t : Tick) (s : DeviceState)
    (h0 : s.cdcCommandTime = 0) (hd : s.mouseCmd.hasData = false) (ht : t.now < 500) :
    hidStep t s = (s, none) := by
  have hw : u32sub t.now s.cdcCommandTime < 500 := by
    rw [h0, u32sub_eq _ _ (Nat.zero_le _) (by omega)]
    omega
  unfold hidStep
  rw [if_neg (by simp [hd]), if_pos hw]

/-- Witness for C10 at the power on state and a tick at 250 milliseconds with
the joystick hard over and the button pressed: nothing is emitted and the
state is unchanged. -/
theorem C10_witness : hidStep tickC10 initState = (initState, none) :=
  C10_power_on_suppression tickC10 initState rfl rfl (by decide)
